import Mathlib

/-!
A shallow embedding of `src/electron/src/electron-utils/Database.ts`
(the `Database` class of the ucacoin/sqlite electron backend) and proofs
about its lifecycle, transaction and JSON import/export behaviour.

External collaborators (`UtilsSQLite`, `UtilsFile`, `UtilsUpgrade`,
`ImportFromJson`, `ExportToJson`, `UtilsJson`) are injected capabilities:
each call a method makes into them is modelled by an environment record
holding the outcome (`Except String _`) that call produces in a given
execution.  The control flow of each `Database` method — which calls are
made, in which order, which errors are caught where, and how messages are
wrapped — is translated line by line from the TypeScript source.

A `Promise` that settles is modelled by `Except String α` (rejection
carries the error message).  The methods `runSQL`, `execSet` and `close`
contain callback / fallthrough branches in which the own promise of the method
resolves with `undefined` while inner `Promise.reject` calls are orphaned;
for these the richer `Settle` type records that outcome explicitly.
-/

deriving instance DecidableEq for Except

/-- Configuration-carrying state of the `Database` class: the fields set by
the constructor and never mutated afterwards (`_dbName`, `_encrypted`,
`_mode`, `_version`). -/
structure Database where
  dbName : String
  encrypted : Bool
  mode : String
  version : Int
  deriving DecidableEq, Repr

/-- How the promise of an async method settles: with a value, with `undefined`
(the async function ran off the end of its body), or rejected. -/
inductive Settle (α : Type) where
  | resolved (a : α)
  | undefinedResolved
  | rejected (msg : String)
  deriving DecidableEq, Repr

/-- Events recorded while a transactional primitive runs: each constructor
is one call into the SQLite utility layer. -/
inductive TxEv where
  | begin
  | execute
  | commit
  | rollback
  deriving DecidableEq, Repr

/-- Outcomes of the utility calls made by `Database.executeSQL`
(`beginTransaction`, `execute`, `commitTransaction`,
`rollbackTransaction`). -/
structure ExecEnv where
  begin : Except String Unit
  execute : Except String Int
  commit : Except String Unit
  rollback : Except String Unit
  deriving DecidableEq, Repr

/-- Catch block of `executeSQL` (TS lines 309-317): wraps the original
message, attempts a rollback, appends the failure message of the rollback when
it also fails, and rejects with a second `ExecuteSQL:` wrapping. -/
def execSQLCatch (env : ExecEnv) (e : String) (tr : List TxEv) :
    Except String Int × List TxEv :=
  let msg := "ExecuteSQL: " ++ e
  match env.rollback with
  | Except.ok _ =>
      (Except.error ("ExecuteSQL: " ++ msg), tr ++ [TxEv.rollback])
  | Except.error e2 =>
      (Except.error ("ExecuteSQL: " ++ (msg ++ " : " ++ e2)), tr ++ [TxEv.rollback])

/-- `Database.executeSQL` (TS lines 295-318).  Note that the
`changes < 0` branch rejects by `return Promise.reject` from inside the
`try`, so it bypasses the catch block: no rollback is attempted there. -/
def Database.executeSQL (d : Database) (isOpen : Bool) (env : ExecEnv)
    (sql : String) : Except String Int × List TxEv :=
  if isOpen = false then
    (Except.error ("ExecuteSQL: Database " ++ d.dbName ++ " not opened"), [])
  else
    match env.begin with
    | Except.error e => execSQLCatch env e [TxEv.begin]
    | Except.ok _ =>
      match env.execute with
      | Except.error e => execSQLCatch env e [TxEv.begin, TxEv.execute]
      | Except.ok changes =>
        if changes < 0 then
          (Except.error ("ExecuteSQL: changes < 0"), [TxEv.begin, TxEv.execute])
        else
          match env.commit with
          | Except.error e =>
              execSQLCatch env e [TxEv.begin, TxEv.execute, TxEv.commit]
          | Except.ok _ =>
              (Except.ok changes, [TxEv.begin, TxEv.execute, TxEv.commit])

/-- Outcomes of the utility calls made by `Database.runSQL`: initial
`dbChanges`, `beginTransaction`, the `err` argument passed to the
`_mDB.run` callback (`some msg` = statement failed), `commitTransaction`,
`rollbackTransaction`, final `dbChanges` and `getLastId`. -/
structure RunEnv where
  dbChanges0 : Except String Int
  begin : Except String Unit
  runStmt : Option String
  commit : Except String Unit
  rollback : Except String Unit
  dbChanges1 : Except String Int
  getLastId : Except String Int
  deriving DecidableEq, Repr

/-- Result of `Database.runSQL`: the settlement of the promise the caller
receives, plus the settlement of the orphaned promise produced inside the
`_mDB.run` callback, which no caller ever observes. -/
structure RunOutcome where
  result : Settle (Int × Int)
  orphan : Option (Settle (Int × Int))
  deriving DecidableEq, Repr

/-- `Database.runSQL` (TS lines 346-384).  After the preamble succeeds,
`_mDB.run(statement, values, callback)` is invoked and the enclosing async
function ends without returning anything, so the promise seen by the caller resolves
with `undefined`; every `Promise.resolve` / `Promise.reject` inside the
callback settles a separate, orphaned promise, recorded in `orphan`. -/
def Database.runSQL (d : Database) (isOpen : Bool) (env : RunEnv)
    (stmt : String) (values : List String) : RunOutcome :=
  if isOpen = false then
    ⟨Settle.rejected ("RunSQL: Database " ++ d.dbName ++ " not opened"), none⟩
  else
    match env.dbChanges0 with
    | Except.error e => ⟨Settle.rejected ("RunSQL: " ++ e), none⟩
    | Except.ok init =>
      match env.begin with
      | Except.error e => ⟨Settle.rejected ("RunSQL: " ++ e), none⟩
      | Except.ok _ =>
        let orphan : Settle (Int × Int) :=
          match env.runStmt with
          | some msg =>
            match env.rollback with
            | Except.ok _ => Settle.rejected ("RunSQL: " ++ msg)
            | Except.error e2 =>
                Settle.rejected ("RunSQL: " ++ msg ++ ": " ++ e2)
          | none =>
            match env.commit with
            | Except.error e => Settle.rejected ("RunSQL: " ++ e)
            | Except.ok _ =>
              match env.dbChanges1 with
              | Except.error e => Settle.rejected ("RunSQL: " ++ e)
              | Except.ok c1 =>
                match env.getLastId with
                | Except.error e => Settle.rejected ("RunSQL: " ++ e)
                | Except.ok lid => Settle.resolved (c1 - init, lid)
        ⟨Settle.undefinedResolved, some orphan⟩

/-- Outcomes of the utility calls made by `Database.execSet`: initial
`dbChanges`, `beginTransaction`, `executeSet` (returning the last insert
id), `commitTransaction`, final `dbChanges`, `rollbackTransaction`. -/
structure SetEnv where
  dbChanges0 : Except String Int
  begin : Except String Unit
  executeSet : Except String Int
  commit : Except String Unit
  dbChanges1 : Except String Int
  rollback : Except String Unit
  deriving DecidableEq, Repr

/-- Catch block of `execSet` (TS lines 411-420): attempts a rollback; if
the rollback fails it rejects with a compounded message, but if the
rollback succeeds the catch block completes, the function runs off the end
of its body and the promise resolves with `undefined`. -/
def execSetCatch (env : SetEnv) (msg : String) : Settle (Int × Int) :=
  match env.rollback with
  | Except.ok _ => Settle.undefinedResolved
  | Except.error e2 => Settle.rejected ("ExecSet: " ++ msg ++ ": " ++ e2)

/-- `Database.execSet` (TS lines 391-421), returning the settlement of the
promise as `(changes, lastId)` on the fully successful path. -/
def Database.execSet (d : Database) (isOpen : Bool) (env : SetEnv) :
    Settle (Int × Int) :=
  if isOpen = false then
    Settle.rejected ("ExecSet: Database " ++ d.dbName ++ " not opened")
  else
    match env.dbChanges0 with
    | Except.error e => Settle.rejected ("ExecSet: " ++ e)
    | Except.ok init =>
      match env.begin with
      | Except.error e => Settle.rejected ("ExecSet: " ++ e)
      | Except.ok _ =>
        match env.executeSet with
        | Except.error e => execSetCatch env e
        | Except.ok lid =>
          match env.commit with
          | Except.error e => execSetCatch env e
          | Except.ok _ =>
            match env.dbChanges1 with
            | Except.error e => execSetCatch env e
            | Except.ok c1 => Settle.resolved (c1 - init, lid)

/-- Result of `Database.close`: the settlement of the promise the caller
receives, the open flag afterwards, and the settlement of the orphaned
promise produced inside the `_mDB.close` callback. -/
structure CloseOutcome where
  result : Except String Unit
  isOpenAfter : Bool
  orphan : Option (Except String Unit)
  deriving DecidableEq, Repr

/-- `Database.close` (TS lines 125-138).  When a handle exists and the
database is open, `_mDB.close(callback)` is invoked; the
`Promise.reject` / `Promise.resolve` settle an orphaned promise, and only
a successful release flips `_isDBOpen` to false.  In every case the
method itself ends with `return Promise.resolve()` (line 137). -/
def Database.close (d : Database) (hasHandle : Bool) (isOpen : Bool)
    (closeErr : Option String) : CloseOutcome :=
  if hasHandle = true ∧ isOpen = true then
    match closeErr with
    | some e =>
        ⟨Except.ok (), isOpen,
          some (Except.error
            ("Close: Failed in closing: " ++ d.dbName ++ "  " ++ e))⟩
    | none => ⟨Except.ok (), false, some (Except.ok ())⟩
  else
    ⟨Except.ok (), isOpen, none⟩

/-- Outcomes of the two `ImportFromJson` phases used by
`Database.importJson`. -/
structure ImportEnv where
  createDatabaseSchema : Except String Int
  createTablesData : Except String Int
  deriving DecidableEq, Repr

/-- Result of `Database.importJson`: the settlement plus whether the
row-data phase (`createTablesData`) was invoked at all. -/
structure ImportOutcome where
  result : Except String Int
  tablesDataCalled : Bool
  deriving DecidableEq, Repr

/-- `Database.importJson` (TS lines 422-439): schema phase first; the
row-data phase runs only when the schema phase resolved with a value
different from `-1`; any thrown error rejects with an `ImportJson:`
wrapping. -/
def Database.importJson (d : Database) (isOpen : Bool) (env : ImportEnv) :
    ImportOutcome :=
  if isOpen = true then
    match env.createDatabaseSchema with
    | Except.error e => ⟨Except.error ("ImportJson: " ++ e), false⟩
    | Except.ok changes =>
      if changes ≠ -1 then
        match env.createTablesData with
        | Except.error e => ⟨Except.error ("ImportJson: " ++ e), true⟩
        | Except.ok c2 => ⟨Except.ok c2, true⟩
      else
        ⟨Except.ok changes, false⟩
  else
    ⟨Except.error ("ImportJson: database is closed"), false⟩

/-- Outcomes of the calls made by `Database.createSyncTable`: the
`isTableExists` probe and the environment of the inner `executeSQL`. -/
structure SyncEnv where
  tableExists : Except String Bool
  exec : ExecEnv
  deriving DecidableEq, Repr

/-- The statement string built by `createSyncTable` (TS lines 220-226):
sync-table DDL followed by the seeding insert for the given date. -/
def syncTableStmts (date : Int) : String :=
  ("CREATE TABLE IF NOT EXISTS sync_table (id INTEGER PRIMARY KEY NOT NULL, sync_date INTEGER);")
    ++ "INSERT INTO sync_table (sync_date) VALUES (\"" ++ toString date ++ "\");"

/-- `Database.createSyncTable` (TS lines 203-238).  `changes` starts at
`-1`; it is reassigned only when the probe reports the table absent, so
when `sync_table` already exists the method resolves with `-1`. -/
def Database.createSyncTable (d : Database) (isOpen : Bool) (env : SyncEnv)
    (date : Int) : Except String Int :=
  if isOpen = false then
    Except.error ("CreateSyncTable: Database " ++ d.dbName ++ " not opened")
  else
    match env.tableExists with
    | Except.error e => Except.error ("CreateSyncTable: " ++ e)
    | Except.ok true => Except.ok (-1)
    | Except.ok false =>
      match (d.executeSQL isOpen env.exec (syncTableStmts date)).1 with
      | Except.error e => Except.error ("CreateSyncTable: " ++ e)
      | Except.ok changes =>
        if changes < 0 then
          Except.error ("CreateSyncTable: failed changes < 0")
        else
          Except.ok changes

/-- The header fields of the export document built by `exportJson`. -/
structure JsonHeader where
  database : String
  version : Int
  encrypted : Bool
  mode : String
  deriving DecidableEq, Repr

/-- JavaScript `s.slice(0, -9)`: the string with its final nine characters
removed (empty when the string has at most nine characters). -/
def jsSliceDropLast9 (s : String) : String :=
  String.mk (s.toList.take (s.toList.length - 9))

/-- Header construction of `Database.exportJson` (TS lines 441-445):
`database` is `_dbName.slice(0, -9)`, `version` is `_version`,
`encrypted` is the literal `false`, `mode` is the argument.  The stored
`_encrypted` flag is never consulted. -/
def Database.exportJsonHeader (d : Database) (mode : String) : JsonHeader :=
  { database := jsSliceDropLast9 d.dbName
    version := d.version
    encrypted := false
    mode := mode }

/-- Events recorded while `Database.open` runs: each constructor is one
call into the utility layer (or the cleanup `close()` call of the outer
catch block). -/
inductive Ev where
  | changePassword
  | encryptDatabase
  | openOrCreate
  | getVersion
  | onUpgrade
  | deleteBackup
  | restoreBackup
  | closeCall
  deriving DecidableEq, Repr

/-- Abstract file-system state seen by the open/upgrade flow: the content
of the live database file and, when present, the content of the
`backup-` snapshot file. -/
structure Files where
  db : Nat
  backup : Option Nat
  deriving DecidableEq, Repr

/-- Outcomes of the calls made by `Database.open`: `changePassword`
(mode `newsecret`), `encryptDatabase` (mode `encryption`),
`openOrCreateDatabase`, `getVersion`, the upgrade run, the backup
deletion and the backup restore.  `upgraded` and `botched` are the
database contents left by a successful, resp. a failed, upgrade run. -/
structure OpenEnv where
  changePassword : Except String Unit
  encryptDatabase : Except String Unit
  openOrCreate : Except String Unit
  getVersion : Except String Int
  onUpgrade : Except String Unit
  upgraded : Nat
  botched : Nat
  deleteBackup : Except String Unit
  restoreBackup : Except String Unit
  deriving DecidableEq, Repr

/-- Modelled from the spec: `UtilsUpgrade.onUpgrade` is code of this
repository that is not under `src/`.  Per §4.2-4.3 of the specification it
first snapshots the database (`snapshot(dbName)` copies the live file to
the `backup-`-prefixed file before any schema change), then applies the
applicable upgrade steps: on success the live file holds the upgraded
content, on failure the live file may hold partially-applied content and
the error propagates to the caller. -/
def runOnUpgrade (env : OpenEnv) (f : Files) : Files × Except String Unit :=
  let fsnap : Files := { f with backup := some f.db }
  match env.onUpgrade with
  | Except.ok _ => ({ fsnap with db := env.upgraded }, Except.ok ())
  | Except.error e => ({ fsnap with db := env.botched }, Except.error e)

/-- Modelled from the spec: `UtilsFile.deleteFileName` is code of this
repository that is not under `src/`.  Deleting the `backup-` file removes
the snapshot on success and leaves the file system unchanged on failure. -/
def runDeleteBackup (env : OpenEnv) (f : Files) : Files × Except String Unit :=
  match env.deleteBackup with
  | Except.ok _ => ({ f with backup := none }, Except.ok ())
  | Except.error e => (f, Except.error e)

/-- Modelled from the spec: `UtilsFile.restoreFileName` is code of this
repository that is not under `src/`.  Per §4.2 it copies the snapshot back
over the live database file on success; on failure the error propagates. -/
def runRestore (env : OpenEnv) (f : Files) : Files × Except String Unit :=
  match env.restoreBackup with
  | Except.ok _ =>
    match f.backup with
    | some b => ({ f with db := b }, Except.ok ())
    | none => (f, Except.ok ())
  | Except.error e => (f, Except.error e)

/-- How the outer try body of `open` exits: reaching the final
`return Promise.resolve()` (line 114), returning an explicit, already
wrapped rejection (line 110), or throwing into the outer catch block. -/
inductive BodyExit where
  | resolved
  | rejected (msg : String)
  | thrown (msg : String)
  deriving DecidableEq, Repr

/-- Intermediate state of the body of `open`: the `_isDBOpen` flag, the
file-system state, the trace of utility calls, and how the body exits. -/
structure BodyState where
  isOpen : Bool
  files : Files
  trace : List Ev
  exit : BodyExit
  deriving DecidableEq, Repr

/-- Inner catch block of the upgrade branch (TS lines 105-112): attempt a
restore; when it succeeds, fall through to `return Promise.resolve()`;
when it fails, `return Promise.reject(new Error(`Open: ...`))` directly,
bypassing the outer catch, with `_isDBOpen` still `true`. -/
def restorePath (env : OpenEnv) (f : Files) (tr : List Ev) : BodyState :=
  match runRestore env f with
  | (f2, Except.ok _) =>
      ⟨true, f2, tr ++ [Ev.restoreBackup], BodyExit.resolved⟩
  | (f2, Except.error e) =>
      ⟨true, f2, tr ++ [Ev.restoreBackup], BodyExit.rejected ("Open: " ++ e)⟩

/-- The upgrade branch of `open` (TS lines 93-113) followed by the final
resolve (line 114): entered only when `_version > curVersion`; the inner
`try` runs the upgrade then deletes the backup, and its catch restores. -/
def upgradeFlow (d : Database) (env : OpenEnv) (f0 : Files) (tr : List Ev)
    (cur : Int) : BodyState :=
  if d.version > cur then
    match runOnUpgrade env f0 with
    | (f1, Except.ok _) =>
      match runDeleteBackup env f1 with
      | (f2, Except.ok _) =>
          ⟨true, f2, tr ++ [Ev.onUpgrade, Ev.deleteBackup], BodyExit.resolved⟩
      | (f2, Except.error _) =>
          restorePath env f2 (tr ++ [Ev.onUpgrade, Ev.deleteBackup])
    | (f1, Except.error _) =>
      restorePath env f1 (tr ++ [Ev.onUpgrade])
  else
    ⟨true, f0, tr, BodyExit.resolved⟩

/-- Stage of `open` after a connection exists (TS lines 90-114): read the
stored version, set `_isDBOpen` to `true`, then run the upgrade branch. -/
def openStageVersion (d : Database) (env : OpenEnv) (f0 : Files)
    (tr : List Ev) : BodyState :=
  match env.getVersion with
  | Except.error e =>
      ⟨false, f0, tr ++ [Ev.getVersion], BodyExit.thrown e⟩
  | Except.ok cur =>
      upgradeFlow d env f0 (tr ++ [Ev.getVersion]) cur

/-- Stage of `open` acquiring the connection (TS lines 85-88). -/
def openStageConnect (d : Database) (env : OpenEnv) (f0 : Files)
    (tr : List Ev) : BodyState :=
  match env.openOrCreate with
  | Except.error e =>
      ⟨false, f0, tr ++ [Ev.openOrCreate], BodyExit.thrown e⟩
  | Except.ok _ =>
      openStageVersion d env f0 (tr ++ [Ev.openOrCreate])

/-- Stage of `open` encrypting an unencrypted file in mode `encryption`
(TS lines 82-84). -/
def openStageEncrypt (d : Database) (env : OpenEnv) (f0 : Files)
    (tr : List Ev) : BodyState :=
  if d.mode = "encryption" then
    match env.encryptDatabase with
    | Except.error e =>
        ⟨false, f0, tr ++ [Ev.encryptDatabase], BodyExit.thrown e⟩
    | Except.ok _ =>
        openStageConnect d env f0 (tr ++ [Ev.encryptDatabase])
  else
    openStageConnect d env f0 tr

/-- Body of the outer try of `open` (TS lines 67-114), starting with the
`newsecret` password change (TS lines 74-80). -/
def openBody (d : Database) (env : OpenEnv) (f0 : Files) : BodyState :=
  if d.mode = "newsecret" then
    match env.changePassword with
    | Except.error e =>
        ⟨false, f0, [Ev.changePassword], BodyExit.thrown e⟩
    | Except.ok _ =>
        openStageEncrypt d env f0 [Ev.changePassword]
  else
    openStageEncrypt d env f0 []

/-- Result of `Database.open`: the settlement of the promise, the
`_isDBOpen` flag afterwards, the file-system state, and the trace. -/
structure OpenOutcome where
  result : Except String Unit
  isOpen : Bool
  files : Files
  trace : List Ev
  deriving DecidableEq, Repr

/-- `Database.open` (TS lines 64-119): runs the body; a thrown error is
handled by the outer catch (TS lines 115-118), which calls `close()` if
`_isDBOpen` is set and rejects with an `Open:` wrapping; an explicitly
returned rejection (line 110) bypasses the outer catch. -/
def Database.openDB (d : Database) (env : OpenEnv) (f0 : Files) :
    OpenOutcome :=
  match openBody d env f0 with
  | ⟨o, f, tr, BodyExit.resolved⟩ => ⟨Except.ok (), o, f, tr⟩
  | ⟨o, f, tr, BodyExit.rejected m⟩ => ⟨Except.error m, o, f, tr⟩
  | ⟨o, f, tr, BodyExit.thrown m⟩ =>
      ⟨Except.error ("Open: " ++ m), o, f,
        if o = true then tr ++ [Ev.closeCall] else tr⟩

/-! ## Concrete fixtures used by witnesses and counterexamples -/

/-- A sample controller configuration (unencrypted, version 1). -/
def dbEx : Database := ⟨"testSQLite.db", false, "no-encryption", 1⟩

/-- A sample controller configuration targeting schema version 2. -/
def dbEx2 : Database := ⟨"testSQLite.db", false, "no-encryption", 2⟩

/-- A sample file-system state: live database content token 0, no
snapshot present. -/
def filesEx : Files := ⟨0, none⟩

/-- Transaction environment in which the statement set fails and the
rollback succeeds. -/
def setEnvBodyFail : SetEnv :=
  ⟨Except.ok 0, Except.ok (), Except.error ("UNIQUE constraint failed"),
    Except.ok (), Except.ok 0, Except.ok ()⟩

/-- Run environment in which the bound statement fails and the rollback
succeeds. -/
def runEnvStmtFail : RunEnv :=
  ⟨Except.ok 0, Except.ok (), some ("UNIQUE constraint failed"),
    Except.ok (), Except.ok (), Except.ok 0, Except.ok 0⟩

/-- Execute environment in which the engine reports the negative failure
sentinel as the batch result. -/
def execEnvNeg : ExecEnv :=
  ⟨Except.ok (), Except.ok (-1), Except.ok (), Except.ok ()⟩

/-- Import environment in which the schema phase throws. -/
def importEnvSchemaFail : ImportEnv :=
  ⟨Except.error ("table users: syntax error"), Except.ok 0⟩

/-- Import environment in which the schema phase reports the `-1`
failure sentinel. -/
def importEnvSchemaNeg : ImportEnv := ⟨Except.ok (-1), Except.ok 9⟩

/-- Sync environment in which the probe reports `sync_table` present. -/
def syncEnvExists : SyncEnv :=
  ⟨Except.ok true, ⟨Except.ok (), Except.ok 2, Except.ok (), Except.ok ()⟩⟩

/-- Sync environment in which the probe reports `sync_table` absent and
the creation batch affects two rows. -/
def syncEnvAbsent : SyncEnv :=
  ⟨Except.ok false, ⟨Except.ok (), Except.ok 2, Except.ok (), Except.ok ()⟩⟩

/-! ## C10 — exportJson header construction -/

/-- C10: for every call, `exportJson` builds the export header
deterministically from the controller state: `database` is the configured
name with its final nine characters removed, `version` is the configured
target version, and `encrypted` is always `false`, independently of the
`encrypted` flag the controller was constructed with. -/
theorem exportJson_header_deterministic (d : Database) (m : String) :
    (d.exportJsonHeader m).encrypted = false ∧
    (d.exportJsonHeader m).version = d.version ∧
    (d.exportJsonHeader m).mode = m ∧
    (d.exportJsonHeader m).database.toList ++
        d.dbName.toList.drop (d.dbName.toList.length - 9) = d.dbName.toList ∧
    (d.exportJsonHeader m).database.toList.length = d.dbName.toList.length - 9 ∧
    Database.exportJsonHeader ⟨d.dbName, true, d.mode, d.version⟩ m =
      Database.exportJsonHeader ⟨d.dbName, false, d.mode, d.version⟩ m := by
  refine ⟨rfl, rfl, rfl, ?_, ?_, rfl⟩
  · show (d.dbName.toList.take (d.dbName.toList.length - 9)) ++
        d.dbName.toList.drop (d.dbName.toList.length - 9) = d.dbName.toList
    exact List.take_append_drop _ _
  · show (d.dbName.toList.take (d.dbName.toList.length - 9)).length =
        d.dbName.toList.length - 9
    rw [List.length_take]
    exact Nat.min_eq_left (Nat.sub_le _ _)

/-! ## C4 — transactional primitives must always settle by rejecting on
body failure -/

/-- C4 (divergence witness): the claimed design rule fails on the code.
With the database open, `execSet` whose statement set fails and whose
rollback succeeds resolves with `undefined` instead of rejecting (the
catch block falls off the end of the function); `runSQL` whose bound
statement fails resolves with `undefined` while the rejection raised in
the `_mDB.run` callback is orphaned; and `executeSQL` receiving the
negative engine sentinel rejects without ever attempting a rollback. -/
theorem transactional_primitives_settle_bug :
    dbEx.execSet true setEnvBodyFail = Settle.undefinedResolved ∧
    (dbEx.runSQL true runEnvStmtFail ("INSERT INTO t VALUES (?)") []).result =
      Settle.undefinedResolved ∧
    (dbEx.runSQL true runEnvStmtFail ("INSERT INTO t VALUES (?)") []).orphan =
      some (Settle.rejected ("RunSQL: UNIQUE constraint failed")) ∧
    (dbEx.executeSQL true execEnvNeg ("DELETE FROM t")).1 =
      Except.error ("ExecuteSQL: changes < 0") ∧
    TxEv.rollback ∉ (dbEx.executeSQL true execEnvNeg ("DELETE FROM t")).2 := by
  refine ⟨rfl, rfl, rfl, rfl, ?_⟩
  decide

/-! ## C7 — importJson is two-phase -/

/-- C7: the row-data phase (`createTablesData`) runs only when the schema
phase (`createDatabaseSchema`) resolved with a value other than the `-1`
failure sentinel; a schema phase that throws rejects the import with an
`ImportJson:` wrapping and skips the row-data phase, and a schema phase
reporting the `-1` sentinel skips the row-data phase and surfaces the
`-1` failure sentinel to the caller. -/
theorem importJson_two_phase (d : Database) (isOpen : Bool) (env : ImportEnv)
    (h : isOpen = true) :
    ((d.importJson isOpen env).tablesDataCalled = true →
      ∃ c, env.createDatabaseSchema = Except.ok c ∧ c ≠ -1) ∧
    (∀ e, env.createDatabaseSchema = Except.error e →
      (d.importJson isOpen env).result = Except.error ("ImportJson: " ++ e) ∧
      (d.importJson isOpen env).tablesDataCalled = false) ∧
    (env.createDatabaseSchema = Except.ok (-1) →
      (d.importJson isOpen env).result = Except.ok (-1) ∧
      (d.importJson isOpen env).tablesDataCalled = false) := by
  subst h
  unfold Database.importJson
  cases hcs : env.createDatabaseSchema with
  | error e => simp [hcs]
  | ok c =>
    by_cases hc : c = -1
    · subst hc
      simp
    · cases hct : env.createTablesData with
      | error e2 => simp [hc, hct]
      | ok c2 => simp [hc, hct]

/-- Witness for C7 at concrete inputs: a throwing schema phase rejects
with the wrapped message and never reaches the row-data phase, and a
schema phase reporting `-1` resolves `-1` without reaching it either. -/
theorem importJson_two_phase_witness :
    ((dbEx.importJson true importEnvSchemaFail).result =
        Except.error ("ImportJson: table users: syntax error") ∧
      (dbEx.importJson true importEnvSchemaFail).tablesDataCalled = false) ∧
    ((dbEx.importJson true importEnvSchemaNeg).result = Except.ok (-1) ∧
      (dbEx.importJson true importEnvSchemaNeg).tablesDataCalled = false) :=
  ⟨(importJson_two_phase dbEx true importEnvSchemaFail rfl).2.1
      ("table users: syntax error") rfl,
    (importJson_two_phase dbEx true importEnvSchemaNeg rfl).2.2 rfl⟩

/-! ## C8 — createSyncTable called twice -/

/-- The inner `executeSQL` never resolves with a negative change count:
the `changes < 0` branch rejects instead of resolving. -/
theorem executeSQL_ok_nonneg (d : Database) (isOpen : Bool) (env : ExecEnv)
    (sql : String) (c : Int)
    (h : (d.executeSQL isOpen env sql).1 = Except.ok c) : 0 ≤ c := by
  unfold Database.executeSQL at h
  by_cases ho : isOpen = false
  · simp [ho] at h
  · simp only [ho, if_false] at h
    cases hb : env.begin with
    | error e =>
      rw [hb] at h
      unfold execSQLCatch at h
      cases hr : env.rollback <;> simp [hr] at h
    | ok u =>
      rw [hb] at h
      cases he : env.execute with
      | error e =>
        rw [he] at h
        unfold execSQLCatch at h
        cases hr : env.rollback <;> simp [hr] at h
      | ok changes =>
        rw [he] at h
        by_cases hlt : changes < 0
        · simp [hlt] at h
        · simp only [hlt, if_false] at h
          cases hc : env.commit with
          | error e =>
            rw [hc] at h
            unfold execSQLCatch at h
            cases hr : env.rollback <;> simp [hr] at h
          | ok u2 =>
            rw [hc] at h
            have hcc : changes = c := by simpa using h
            omega

/-- C8 counterexample: with the database open and `sync_table` already
present (the second call of the claim), `createSyncTable` resolves with
`-1` — the value `changes` was initialised to and never reassigned — and
not with the claimed `0`. -/
theorem createSyncTable_second_call_counterexample :
    dbEx.createSyncTable true syncEnvExists 1704067200 = Except.ok (-1) ∧
    (Except.ok (-1) : Except String Int) ≠ Except.ok 0 := by
  refine ⟨rfl, ?_⟩
  decide

/-- C8 amended: on an open database, when `sync_table` already exists the
call is a no-op that resolves `-1` (not an error); when it does not
exist, the call resolves with exactly the (necessarily non-negative)
change count the creation batch committed. -/
theorem createSyncTable_noop_amended (d : Database) (env : SyncEnv)
    (date : Int) (hex : env.tableExists = Except.ok true ∨
      env.tableExists = Except.ok false) :
    (env.tableExists = Except.ok true →
      d.createSyncTable true env date = Except.ok (-1)) ∧
    (∀ c, env.tableExists = Except.ok false →
      (d.executeSQL true env.exec (syncTableStmts date)).1 = Except.ok c →
      d.createSyncTable true env date = Except.ok c ∧ 0 ≤ c) := by
  constructor
  · intro ht
    unfold Database.createSyncTable
    simp [ht]
  · intro c ht hc
    have hnn : 0 ≤ c := executeSQL_ok_nonneg d true env.exec (syncTableStmts date) c hc
    refine ⟨?_, hnn⟩
    unfold Database.createSyncTable
    rw [ht]
    simp only [Bool.true_eq_false, if_false]
    rw [hc]
    have : ¬ c < 0 := not_lt.mpr hnn
    simp [this]

/-- Witness for the amended statement of C8 at concrete inputs: second call
(table present) resolves `-1`; first call (table absent, creation batch
affecting two rows) resolves `2`. -/
theorem createSyncTable_noop_amended_witness :
    dbEx.createSyncTable true syncEnvExists 1704067200 = Except.ok (-1) ∧
    dbEx.createSyncTable true syncEnvAbsent 1704067200 = Except.ok 2 :=
  ⟨(createSyncTable_noop_amended dbEx syncEnvExists 1704067200 (Or.inl rfl)).1 rfl,
    ((createSyncTable_noop_amended dbEx syncEnvAbsent 1704067200 (Or.inr rfl)).2
      2 rfl rfl).1⟩

/-! ## C9 — close on an already-closed database, and release failures -/

/-- C9 counterexample: with a handle present, the database open and the
release failing, `close()` still resolves successfully (TS line 137) and
the open flag stays `true`; the rejection built inside the `_mDB.close`
callback is orphaned and never reaches the caller. -/
theorem close_release_failure_counterexample :
    (dbEx.close true true (some ("SQLITE_BUSY"))).result = Except.ok () ∧
    (dbEx.close true true (some ("SQLITE_BUSY"))).isOpenAfter = true ∧
    (dbEx.close true true (some ("SQLITE_BUSY"))).orphan =
      some (Except.error
        ("Close: Failed in closing: testSQLite.db  SQLITE_BUSY")) := by
  exact ⟨rfl, rfl, rfl⟩

/-- C9 amended: `close()` on an already-closed database (or with no
connection handle) is a no-op that resolves successfully and leaves the
state unchanged; but `close()` resolves successfully in every case — when
the database is open and releasing the connection fails, the failure is
recorded only in an orphaned rejected promise, the caller of `close()`
still sees success, and the open flag remains `true`. -/
theorem close_noop_amended (d : Database) (hasHandle isOpen : Bool)
    (err : Option String) (htotal : err = none ∨ ∃ e, err = some e) :
    (isOpen = false →
      d.close hasHandle isOpen err = ⟨Except.ok (), isOpen, none⟩) ∧
    (hasHandle = false →
      d.close hasHandle isOpen err = ⟨Except.ok (), isOpen, none⟩) ∧
    (d.close hasHandle isOpen err).result = Except.ok () ∧
    (∀ e, hasHandle = true → isOpen = true → err = some e →
      (d.close hasHandle isOpen err).isOpenAfter = true ∧
      (d.close hasHandle isOpen err).orphan = some (Except.error
        ("Close: Failed in closing: " ++ d.dbName ++ "  " ++ e))) := by
  clear htotal
  refine ⟨?_, ?_, ?_, ?_⟩
  · intro ho
    subst ho
    unfold Database.close
    simp
  · intro hh
    subst hh
    unfold Database.close
    simp
  · unfold Database.close
    by_cases h : hasHandle = true ∧ isOpen = true
    · cases herr : err <;> simp [h, herr]
    · simp [h]
  · intro e hh ho herr
    subst hh; subst ho; subst herr
    unfold Database.close
    simp

/-- Witness for the amended statement of C9 at concrete inputs: a closed
database gives the unchanged no-op outcome, and an open database whose
release fails still reports success while keeping the flag set. -/
theorem close_noop_amended_witness :
    dbEx.close true false none = ⟨Except.ok (), false, none⟩ ∧
    ((dbEx.close true true (some ("SQLITE_BUSY"))).isOpenAfter = true ∧
      (dbEx.close true true (some ("SQLITE_BUSY"))).orphan = some (Except.error
        ("Close: Failed in closing: testSQLite.db  SQLITE_BUSY"))) :=
  ⟨(close_noop_amended dbEx true false none (Or.inl rfl)).1 rfl,
    (close_noop_amended dbEx true true (some ("SQLITE_BUSY"))
      (Or.inr ⟨"SQLITE_BUSY", rfl⟩)).2.2.2 ("SQLITE_BUSY") rfl rfl rfl⟩

/-! ## Infrastructure lemmas for the open() flow -/

/-- The trace of utility calls `open` produces before reaching the
upgrade branch, when the password, encryption, connection and version
steps all succeed. -/
def preTrace (d : Database) : List Ev :=
  (if d.mode = "newsecret" then [Ev.changePassword] else []) ++
    (if d.mode = "encryption" then [Ev.encryptDatabase] else []) ++
    [Ev.openOrCreate, Ev.getVersion]

/-- When every step before the version comparison succeeds, the body of
`open` is exactly the upgrade branch run on the pre-branch trace. -/
theorem openBody_presteps (d : Database) (env : OpenEnv) (f0 : Files)
    (v : Int) (hcp : env.changePassword = Except.ok ())
    (henc : env.encryptDatabase = Except.ok ())
    (hoc : env.openOrCreate = Except.ok ())
    (hgv : env.getVersion = Except.ok v) :
    openBody d env f0 = upgradeFlow d env f0 (preTrace d) v := by
  by_cases hm1 : d.mode = "newsecret"
  · by_cases hm2 : d.mode = "encryption"
    · rw [hm1] at hm2
      exact absurd hm2 (by decide)
    · simp [openBody, openStageEncrypt, openStageConnect, openStageVersion,
        preTrace, hm1, hm2, hcp, henc, hoc, hgv]
  · by_cases hm2 : d.mode = "encryption" <;>
      simp [openBody, openStageEncrypt, openStageConnect, openStageVersion,
        preTrace, hm1, hm2, hcp, henc, hoc, hgv]

/-- The pre-branch trace reads the version exactly once and contains no
upgrade-branch or cleanup event. -/
theorem preTrace_facts (d : Database) :
    (preTrace d).count Ev.getVersion = 1 ∧
    Ev.onUpgrade ∉ preTrace d ∧
    Ev.deleteBackup ∉ preTrace d ∧
    Ev.restoreBackup ∉ preTrace d ∧
    Ev.closeCall ∉ preTrace d := by
  unfold preTrace
  by_cases hm1 : d.mode = "newsecret" <;>
    by_cases hm2 : d.mode = "encryption" <;>
      simp [hm1, hm2]

/-- The upgrade branch is skipped when the target version is not above
the stored one: the body resolves with state and trace untouched. -/
theorem upgradeFlow_skip (d : Database) (env : OpenEnv) (f0 : Files)
    (tr : List Ev) (cur : Int) (h : d.version ≤ cur) :
    upgradeFlow d env f0 tr cur = ⟨true, f0, tr, BodyExit.resolved⟩ := by
  unfold upgradeFlow
  rw [if_neg (not_lt.mpr h)]

/-- Successful upgrade and successful backup deletion: the body resolves
with the upgraded content and no snapshot left. -/
theorem upgradeFlow_ok_ok (d : Database) (env : OpenEnv) (f0 : Files)
    (tr : List Ev) (cur : Int) (hv : cur < d.version)
    (hu : env.onUpgrade = Except.ok ())
    (hd : env.deleteBackup = Except.ok ()) :
    upgradeFlow d env f0 tr cur =
      ⟨true, ⟨env.upgraded, none⟩, tr ++ [Ev.onUpgrade, Ev.deleteBackup],
        BodyExit.resolved⟩ := by
  unfold upgradeFlow runOnUpgrade runDeleteBackup
  rw [if_pos hv, hu, hd]

/-- Successful upgrade but failing backup deletion: the inner catch runs
the restore path on the upgraded content (snapshot still present). -/
theorem upgradeFlow_ok_fail (d : Database) (env : OpenEnv) (f0 : Files)
    (tr : List Ev) (cur : Int) (e : String) (hv : cur < d.version)
    (hu : env.onUpgrade = Except.ok ())
    (hd : env.deleteBackup = Except.error e) :
    upgradeFlow d env f0 tr cur =
      restorePath env ⟨env.upgraded, some f0.db⟩
        (tr ++ [Ev.onUpgrade, Ev.deleteBackup]) := by
  unfold upgradeFlow runOnUpgrade runDeleteBackup
  rw [if_pos hv, hu, hd]

/-- Failing upgrade: the inner catch runs the restore path on the
partially-applied content (snapshot present). -/
theorem upgradeFlow_fail (d : Database) (env : OpenEnv) (f0 : Files)
    (tr : List Ev) (cur : Int) (e : String) (hv : cur < d.version)
    (hu : env.onUpgrade = Except.error e) :
    upgradeFlow d env f0 tr cur =
      restorePath env ⟨env.botched, some f0.db⟩ (tr ++ [Ev.onUpgrade]) := by
  unfold upgradeFlow runOnUpgrade
  rw [if_pos hv, hu]

/-- Successful restore over a present snapshot: the body falls through to
the final resolve with the snapshot contents back in the live file. -/
theorem restorePath_ok (env : OpenEnv) (b : Nat) (db : Nat) (tr : List Ev)
    (hr : env.restoreBackup = Except.ok ()) :
    restorePath env ⟨db, some b⟩ tr =
      ⟨true, ⟨b, some b⟩, tr ++ [Ev.restoreBackup], BodyExit.resolved⟩ := by
  unfold restorePath runRestore
  rw [hr]

/-- Failing restore: the body returns the wrapped rejection directly,
with the open flag still set. -/
theorem restorePath_fail (env : OpenEnv) (f : Files) (tr : List Ev)
    (e : String) (hr : env.restoreBackup = Except.error e) :
    restorePath env f tr =
      ⟨true, f, tr ++ [Ev.restoreBackup],
        BodyExit.rejected ("Open: " ++ e)⟩ := by
  unfold restorePath runRestore
  rw [hr]

/-! ## Fixtures for the open() claims -/

/-- Open environment: all steps succeed, stored version 1, upgrade leaves
content 7 (content 3 if it had failed midway). -/
def envOkAll : OpenEnv :=
  ⟨Except.ok (), Except.ok (), Except.ok (), Except.ok 1, Except.ok (),
    7, 3, Except.ok (), Except.ok ()⟩

/-- Open environment: upgrade step fails, restore succeeds. -/
def envC1 : OpenEnv :=
  ⟨Except.ok (), Except.ok (), Except.ok (), Except.ok 1,
    Except.error ("step 2 failed"), 7, 3, Except.ok (), Except.ok ()⟩

/-- Open environment: upgrade succeeds, backup deletion fails, restore
succeeds. -/
def envC2 : OpenEnv :=
  ⟨Except.ok (), Except.ok (), Except.ok (), Except.ok 1, Except.ok (),
    7, 3, Except.error ("EPERM"), Except.ok ()⟩

/-- Open environment: upgrade step fails and the restore also fails. -/
def envC5 : OpenEnv :=
  ⟨Except.ok (), Except.ok (), Except.ok (), Except.ok 1,
    Except.error ("step 2 failed"), 7, 3, Except.ok (),
    Except.error ("copyfile EACCES")⟩

/-- Open environment: acquiring the connection fails. -/
def envConnFail : OpenEnv :=
  ⟨Except.ok (), Except.ok (), Except.error ("cannot open file"),
    Except.ok 1, Except.ok (), 7, 3, Except.ok (), Except.ok ()⟩

/-! ## C6 — the version gate of open() -/

/-- C6: with the steps before the version comparison succeeding, `open`
reads the stored schema version exactly once, enters the upgrade flow if
and only if the configured target version is strictly greater than the
stored one, and when `config.version <= storedVersion` it performs no
upgrade step, no snapshot (the snapshot is taken inside the upgrade run,
which never starts), no backup deletion and no restore, leaves the file
system untouched and completes normally with the database open. -/
theorem open_version_gate (d : Database) (env : OpenEnv) (f0 : Files)
    (v : Int) (hcp : env.changePassword = Except.ok ())
    (henc : env.encryptDatabase = Except.ok ())
    (hoc : env.openOrCreate = Except.ok ())
    (hgv : env.getVersion = Except.ok v) :
    (d.openDB env f0).trace.count Ev.getVersion = 1 ∧
    (Ev.onUpgrade ∈ (d.openDB env f0).trace ↔ v < d.version) ∧
    (d.version ≤ v →
      (d.openDB env f0).result = Except.ok () ∧
      (d.openDB env f0).isOpen = true ∧
      (d.openDB env f0).files = f0 ∧
      Ev.onUpgrade ∉ (d.openDB env f0).trace ∧
      Ev.deleteBackup ∉ (d.openDB env f0).trace ∧
      Ev.restoreBackup ∉ (d.openDB env f0).trace) := by
  have hb := openBody_presteps d env f0 v hcp henc hoc hgv
  obtain ⟨hcount, hnup, hndel, hnres, hncl⟩ := preTrace_facts d
  by_cases hv : v < d.version
  · simp only [Database.openDB, hb]
    cases hu : env.onUpgrade with
    | ok u =>
      cases u
      cases hd : env.deleteBackup with
      | ok u2 =>
        cases u2
        rw [upgradeFlow_ok_ok d env f0 (preTrace d) v hv hu hd]
        refine ⟨?_, ?_, fun hle => absurd hv (not_lt.mpr hle)⟩
        · simp [List.count_append, hcount]
        · simp [List.mem_append, hv]
      | error e =>
        rw [upgradeFlow_ok_fail d env f0 (preTrace d) v e hv hu hd]
        cases hr : env.restoreBackup with
        | ok u3 =>
          cases u3
          rw [restorePath_ok env f0.db env.upgraded _ hr]
          refine ⟨?_, ?_, fun hle => absurd hv (not_lt.mpr hle)⟩
          · simp [List.count_append, hcount]
          · simp [List.mem_append, hv]
        | error e2 =>
          rw [restorePath_fail env _ _ e2 hr]
          refine ⟨?_, ?_, fun hle => absurd hv (not_lt.mpr hle)⟩
          · simp [List.count_append, hcount]
          · simp [List.mem_append, hv]
    | error e =>
      rw [upgradeFlow_fail d env f0 (preTrace d) v e hv hu]
      cases hr : env.restoreBackup with
      | ok u3 =>
        cases u3
        rw [restorePath_ok env f0.db env.botched _ hr]
        refine ⟨?_, ?_, fun hle => absurd hv (not_lt.mpr hle)⟩
        · simp [List.count_append, hcount]
        · simp [List.mem_append, hv]
      | error e2 =>
        rw [restorePath_fail env _ _ e2 hr]
        refine ⟨?_, ?_, fun hle => absurd hv (not_lt.mpr hle)⟩
        · simp [List.count_append, hcount]
        · simp [List.mem_append, hv]
  · have hskip := upgradeFlow_skip d env f0 (preTrace d) v (le_of_not_lt hv)
    simp only [Database.openDB, hb, hskip]
    refine ⟨hcount, iff_of_false hnup hv,
      fun _ => ⟨?_, ?_, ?_, hnup, hndel, hnres⟩⟩ <;> trivial

/-- Witness for C6 at concrete inputs: target version 1 against stored
version 1 opens normally, touches no file and runs no upgrade. -/
theorem open_version_gate_witness :
    (dbEx.openDB envOkAll filesEx).result = Except.ok () ∧
    (dbEx.openDB envOkAll filesEx).files = filesEx ∧
    Ev.onUpgrade ∉ (dbEx.openDB envOkAll filesEx).trace ∧
    Ev.deleteBackup ∉ (dbEx.openDB envOkAll filesEx).trace ∧
    Ev.restoreBackup ∉ (dbEx.openDB envOkAll filesEx).trace := by
  have h := open_version_gate dbEx envOkAll filesEx 1 rfl rfl rfl rfl
  have h3 := h.2.2 (by decide)
  exact ⟨h3.1, h3.2.2.1, h3.2.2.2.1, h3.2.2.2.2.1, h3.2.2.2.2.2⟩

/-! ## C1 — upgrade failure: restore happens, but the failure is not
signalled upward -/

/-- C1 counterexample: an execution whose upgrade step fails (with the
upgrade flow actually entered) and whose restore succeeds makes `open()`
resolve successfully — the step failure is swallowed by the inner catch
block, refuting the claim that the `open()` call fails rather than
reporting success. -/
theorem open_upgrade_failure_not_signalled :
    envC1.onUpgrade = Except.error ("step 2 failed") ∧
    Ev.onUpgrade ∈ (dbEx2.openDB envC1 filesEx).trace ∧
    (dbEx2.openDB envC1 filesEx).result = Except.ok () := by
  refine ⟨rfl, ?_, rfl⟩
  decide

/-- C1 amended: if any upgrade step fails, the restore from the snapshot
is invoked; when the restore succeeds the database content after the
`open()` call equals the content before the call, but `open()` resolves
successfully (the step failure is not signalled to the caller); only when
the restore itself also fails does `open()` reject, with a wrapped error,
leaving the open flag set. -/
theorem open_upgrade_failure_restores (d : Database) (env : OpenEnv)
    (f0 : Files) (v : Int) (e : String)
    (hcp : env.changePassword = Except.ok ())
    (henc : env.encryptDatabase = Except.ok ())
    (hoc : env.openOrCreate = Except.ok ())
    (hgv : env.getVersion = Except.ok v)
    (hv : v < d.version) (hu : env.onUpgrade = Except.error e) :
    Ev.restoreBackup ∈ (d.openDB env f0).trace ∧
    (env.restoreBackup = Except.ok () →
      (d.openDB env f0).files.db = f0.db ∧
      (d.openDB env f0).result = Except.ok ()) ∧
    (∀ e2, env.restoreBackup = Except.error e2 →
      (d.openDB env f0).result = Except.error ("Open: " ++ e2) ∧
      (d.openDB env f0).isOpen = true) := by
  have hb := openBody_presteps d env f0 v hcp henc hoc hgv
  have hf := upgradeFlow_fail d env f0 (preTrace d) v e hv hu
  cases hr : env.restoreBackup with
  | ok u =>
    cases u
    simp only [Database.openDB, hb, hf,
      restorePath_ok env f0.db env.botched _ hr]
    refine ⟨by simp [List.mem_append], fun _ => ⟨by trivial, by trivial⟩, ?_⟩
    intro e2 hre2
    exact Except.noConfusion hre2
  | error e2x =>
    simp only [Database.openDB, hb, hf, restorePath_fail env _ _ e2x hr]
    refine ⟨by simp [List.mem_append], ?_, ?_⟩
    · intro hok
      exact Except.noConfusion hok
    · intro e2 hre2
      injection hre2 with he
      subst he
      exact ⟨by trivial, by trivial⟩

/-- Witness for the amended statement of C1 at concrete inputs: upgrade step
fails, restore succeeds, content is back to the pre-call token and the
call resolves. -/
theorem open_upgrade_failure_restores_witness :
    Ev.restoreBackup ∈ (dbEx2.openDB envC1 filesEx).trace ∧
    (dbEx2.openDB envC1 filesEx).files.db = filesEx.db ∧
    (dbEx2.openDB envC1 filesEx).result = Except.ok () := by
  have h := open_upgrade_failure_restores dbEx2 envC1 filesEx 1
    ("step 2 failed") rfl rfl rfl rfl (by decide) rfl
  exact ⟨h.1, (h.2.1 rfl).1, (h.2.1 rfl).2⟩

/-! ## C2 — when restore runs, and what a restore failure does -/

/-- C2 counterexample: the restore is not invoked only after a failed
upgrade — an execution whose upgrade succeeds but whose backup deletion
fails also reaches the inner catch block and invokes the restore. -/
theorem open_restore_after_successful_upgrade :
    envC2.onUpgrade = Except.ok () ∧
    envC2.deleteBackup = Except.error ("EPERM") ∧
    Ev.restoreBackup ∈ (dbEx2.openDB envC2 filesEx).trace := by
  refine ⟨rfl, rfl, ?_⟩
  decide

/-- C2 amended: during `open()` (with the steps before the version
comparison succeeding), the restore is invoked exactly when the upgrade
branch was entered and its try block failed — that is, after a failed
upgrade step or after a failed backup deletion following a successful
upgrade; and whenever the restore is invoked and itself fails, `open()`
rejects with the fatal wrapped error rather than resolving. -/
theorem open_restore_gate (d : Database) (env : OpenEnv) (f0 : Files)
    (v : Int) (hcp : env.changePassword = Except.ok ())
    (henc : env.encryptDatabase = Except.ok ())
    (hoc : env.openOrCreate = Except.ok ())
    (hgv : env.getVersion = Except.ok v) :
    (Ev.restoreBackup ∈ (d.openDB env f0).trace ↔
      (v < d.version ∧
        ¬(env.onUpgrade = Except.ok () ∧
          env.deleteBackup = Except.ok ()))) ∧
    (∀ e2, env.restoreBackup = Except.error e2 →
      Ev.restoreBackup ∈ (d.openDB env f0).trace →
      (d.openDB env f0).result = Except.error ("Open: " ++ e2)) := by
  have hb := openBody_presteps d env f0 v hcp henc hoc hgv
  obtain ⟨hcount, hnup, hndel, hnres, hncl⟩ := preTrace_facts d
  by_cases hv : v < d.version
  · simp only [Database.openDB, hb]
    cases hu : env.onUpgrade with
    | ok u =>
      cases u
      cases hd : env.deleteBackup with
      | ok u2 =>
        cases u2
        rw [upgradeFlow_ok_ok d env f0 (preTrace d) v hv hu hd]
        constructor
        · refine iff_of_false ?_ ?_
          · simp [List.mem_append, hnres]
          · intro hand
            exact hand.2 ⟨rfl, rfl⟩
        · intro e2 hre2 hmem
          exact absurd hmem (by simp [List.mem_append, hnres])
      | error e =>
        rw [upgradeFlow_ok_fail d env f0 (preTrace d) v e hv hu hd]
        cases hr : env.restoreBackup with
        | ok u3 =>
          cases u3
          rw [restorePath_ok env f0.db env.upgraded _ hr]
          constructor
          · refine iff_of_true (by simp [List.mem_append]) ⟨hv, ?_⟩
            intro hand
            exact Except.noConfusion hand.2
          · intro e2 hre2 _
            exact Except.noConfusion hre2
        | error e2x =>
          rw [restorePath_fail env _ _ e2x hr]
          constructor
          · refine iff_of_true (by simp [List.mem_append]) ⟨hv, ?_⟩
            intro hand
            exact Except.noConfusion hand.2
          · intro e2 hre2 _
            injection hre2 with he
            subst he
            rfl
    | error e =>
      rw [upgradeFlow_fail d env f0 (preTrace d) v e hv hu]
      cases hr : env.restoreBackup with
      | ok u3 =>
        cases u3
        rw [restorePath_ok env f0.db env.botched _ hr]
        constructor
        · refine iff_of_true (by simp [List.mem_append]) ⟨hv, ?_⟩
          intro hand
          exact Except.noConfusion hand.1
        · intro e2 hre2 _
          exact Except.noConfusion hre2
      | error e2x =>
        rw [restorePath_fail env _ _ e2x hr]
        constructor
        · refine iff_of_true (by simp [List.mem_append]) ⟨hv, ?_⟩
          intro hand
          exact Except.noConfusion hand.1
        · intro e2 hre2 _
          injection hre2 with he
          subst he
          rfl
  · have hskip := upgradeFlow_skip d env f0 (preTrace d) v (le_of_not_lt hv)
    simp only [Database.openDB, hb, hskip]
    constructor
    · exact iff_of_false hnres (fun hand => hv hand.1)
    · intro e2 hre2 hmem
      exact absurd hmem hnres

/-- Witness for the amended statement of C2 at concrete inputs: upgrade step
fails and restore fails, so the restore ran and `open()` rejected with
the fatal wrapped restore error. -/
theorem open_restore_gate_witness :
    Ev.restoreBackup ∈ (dbEx2.openDB envC5 filesEx).trace ∧
    (dbEx2.openDB envC5 filesEx).result =
      Except.error ("Open: " ++ "copyfile EACCES") := by
  have h := open_restore_gate dbEx2 envC5 filesEx 1 rfl rfl rfl rfl
  have hmem : Ev.restoreBackup ∈ (dbEx2.openDB envC5 filesEx).trace := by
    refine h.1.mpr ⟨by decide, ?_⟩
    intro hand
    cases hand.1
  exact ⟨hmem, h.2 ("copyfile EACCES") rfl hmem⟩

/-! ## C3 — discard of the snapshot and discard failures -/

/-- C3 counterexample: a failed backup deletion after a successful
upgrade is not non-fatal in the claimed sense — it lands in the inner
catch block, which restores the pre-upgrade snapshot over the
already-upgraded database: the final live content is the pre-upgrade
token 0, not the upgraded token 7, and the restore did run. -/
theorem open_discard_failure_triggers_restore :
    envC2.onUpgrade = Except.ok () ∧
    envC2.deleteBackup = Except.error ("EPERM") ∧
    (dbEx2.openDB envC2 filesEx).result = Except.ok () ∧
    Ev.restoreBackup ∈ (dbEx2.openDB envC2 filesEx).trace ∧
    (dbEx2.openDB envC2 filesEx).files.db = 0 ∧
    envC2.upgraded = 7 := by
  refine ⟨rfl, rfl, rfl, ?_, rfl, rfl⟩
  decide

/-- C3 amended: during `open()` (with the steps before the version
comparison succeeding) the backup deletion is attempted exactly when the
upgrade branch ran and the upgrade succeeded; when the deletion also
succeeds, `open()` resolves with the upgraded content and no restore ever
runs; but when the deletion fails, the failure is caught by the same
catch block as an upgrade failure: the pre-upgrade snapshot is restored
over the already-upgraded database (after which `open()` still resolves),
and if that restore fails `open()` rejects with the wrapped error. -/
theorem open_discard_gate (d : Database) (env : OpenEnv) (f0 : Files)
    (v : Int) (hcp : env.changePassword = Except.ok ())
    (henc : env.encryptDatabase = Except.ok ())
    (hoc : env.openOrCreate = Except.ok ())
    (hgv : env.getVersion = Except.ok v) :
    (Ev.deleteBackup ∈ (d.openDB env f0).trace ↔
      (v < d.version ∧ env.onUpgrade = Except.ok ())) ∧
    (v < d.version → env.onUpgrade = Except.ok () →
      (env.deleteBackup = Except.ok () →
        (d.openDB env f0).result = Except.ok () ∧
        (d.openDB env f0).files = ⟨env.upgraded, none⟩ ∧
        Ev.restoreBackup ∉ (d.openDB env f0).trace) ∧
      (∀ e, env.deleteBackup = Except.error e →
        Ev.restoreBackup ∈ (d.openDB env f0).trace ∧
        (env.restoreBackup = Except.ok () →
          (d.openDB env f0).result = Except.ok () ∧
          (d.openDB env f0).files.db = f0.db) ∧
        (∀ e2, env.restoreBackup = Except.error e2 →
          (d.openDB env f0).result = Except.error ("Open: " ++ e2)))) := by
  have hb := openBody_presteps d env f0 v hcp henc hoc hgv
  obtain ⟨hcount, hnup, hndel, hnres, hncl⟩ := preTrace_facts d
  by_cases hv : v < d.version
  · simp only [Database.openDB, hb]
    cases hu : env.onUpgrade with
    | ok u =>
      cases u
      cases hd : env.deleteBackup with
      | ok u2 =>
        cases u2
        rw [upgradeFlow_ok_ok d env f0 (preTrace d) v hv hu hd]
        constructor
        · exact iff_of_true (by simp [List.mem_append]) ⟨hv, rfl⟩
        · intro _ _
          constructor
          · intro _
            exact ⟨by trivial, by trivial, by simp [List.mem_append, hnres]⟩
          · intro e hde
            exact Except.noConfusion hde
      | error e =>
        rw [upgradeFlow_ok_fail d env f0 (preTrace d) v e hv hu hd]
        cases hr : env.restoreBackup with
        | ok u3 =>
          cases u3
          rw [restorePath_ok env f0.db env.upgraded _ hr]
          constructor
          · exact iff_of_true (by simp [List.mem_append]) ⟨hv, rfl⟩
          · intro _ _
            constructor
            · intro hde
              exact Except.noConfusion hde
            · intro e0 hde
              refine ⟨by simp [List.mem_append], fun _ => ⟨by trivial, by trivial⟩, ?_⟩
              intro e2 hre2
              exact Except.noConfusion hre2
        | error e2x =>
          rw [restorePath_fail env _ _ e2x hr]
          constructor
          · exact iff_of_true (by simp [List.mem_append]) ⟨hv, rfl⟩
          · intro _ _
            constructor
            · intro hde
              exact Except.noConfusion hde
            · intro e0 hde
              refine ⟨by simp [List.mem_append], ?_, ?_⟩
              · intro hok
                exact Except.noConfusion hok
              · intro e2 hre2
                injection hre2 with he
                subst he
                rfl
    | error e =>
      rw [upgradeFlow_fail d env f0 (preTrace d) v e hv hu]
      have hnotdel : Ev.deleteBackup ∉ preTrace d ++ [Ev.onUpgrade] := by
        simp [List.mem_append, hndel]
      cases hr : env.restoreBackup with
      | ok u3 =>
        cases u3
        rw [restorePath_ok env f0.db env.botched _ hr]
        constructor
        · refine iff_of_false ?_ ?_
          · simp [List.mem_append, hndel]
          · intro hand
            exact Except.noConfusion hand.2
        · intro _ hand
          exact Except.noConfusion hand
      | error e2x =>
        rw [restorePath_fail env _ _ e2x hr]
        constructor
        · refine iff_of_false ?_ ?_
          · simp [List.mem_append, hndel]
          · intro hand
            exact Except.noConfusion hand.2
        · intro _ hand
          exact Except.noConfusion hand
  · have hskip := upgradeFlow_skip d env f0 (preTrace d) v (le_of_not_lt hv)
    simp only [Database.openDB, hb, hskip]
    constructor
    · exact iff_of_false hndel (fun hand => hv hand.1)
    · intro hv2 _
      exact absurd hv2 hv

/-- Witness for the amended statement of C3 at concrete inputs: everything
succeeds, so the backup deletion runs, `open()` resolves with the
upgraded content and no restore is invoked. -/
theorem open_discard_gate_witness :
    Ev.deleteBackup ∈ (dbEx2.openDB envOkAll filesEx).trace ∧
    (dbEx2.openDB envOkAll filesEx).result = Except.ok () ∧
    (dbEx2.openDB envOkAll filesEx).files = ⟨7, none⟩ ∧
    Ev.restoreBackup ∉ (dbEx2.openDB envOkAll filesEx).trace := by
  have h := open_discard_gate dbEx2 envOkAll filesEx 1 rfl rfl rfl rfl
  have h2 := (h.2 (by decide) rfl).1 rfl
  exact ⟨h.1.mpr ⟨by decide, rfl⟩, h2.1, h2.2.1, h2.2.2⟩

/-! ## C5 — the state open() leaves behind when it rejects -/

/-- Invariant of the body of `open`: the cleanup `close()` is never
recorded, a thrown exit always happens with the open flag still unset,
and a directly returned rejection happens only on the restore-failure
path, with the flag set, the restore in the trace, and the message
already `Open:`-wrapped around the restore error. -/
def BodySpec (env : OpenEnv) (s : BodyState) : Prop :=
  Ev.closeCall ∉ s.trace ∧
  (∀ m, s.exit = BodyExit.thrown m → s.isOpen = false) ∧
  (∀ m, s.exit = BodyExit.rejected m →
    s.isOpen = true ∧ Ev.restoreBackup ∈ s.trace ∧
    ∃ e2, env.restoreBackup = Except.error e2 ∧ m = "Open: " ++ e2)

/-- The restore path satisfies the body invariant whenever the incoming
trace does. -/
theorem bodySpec_restorePath (env : OpenEnv) (f : Files) (tr : List Ev)
    (h : Ev.closeCall ∉ tr) : BodySpec env (restorePath env f tr) := by
  unfold BodySpec restorePath runRestore
  cases hr : env.restoreBackup with
  | ok u =>
    cases hb : f.backup <;>
      simp [List.mem_append, h]
  | error e =>
    refine ⟨by simp [List.mem_append, h], by simp, ?_⟩
    intro m hm
    simp only [BodyExit.rejected.injEq] at hm
    exact ⟨rfl, by simp [List.mem_append], e, rfl, hm.symm⟩

/-- The upgrade branch satisfies the body invariant whenever the incoming
trace does. -/
theorem bodySpec_upgradeFlow (d : Database) (env : OpenEnv) (f0 : Files)
    (tr : List Ev) (cur : Int) (h : Ev.closeCall ∉ tr) :
    BodySpec env (upgradeFlow d env f0 tr cur) := by
  by_cases hv : cur < d.version
  · cases hu : env.onUpgrade with
    | ok u =>
      cases u
      cases hd : env.deleteBackup with
      | ok u2 =>
        cases u2
        rw [upgradeFlow_ok_ok d env f0 tr cur hv hu hd]
        exact ⟨by simp [List.mem_append, h], by simp, by simp⟩
      | error e =>
        rw [upgradeFlow_ok_fail d env f0 tr cur e hv hu hd]
        exact bodySpec_restorePath env _ _ (by simp [List.mem_append, h])
    | error e =>
      rw [upgradeFlow_fail d env f0 tr cur e hv hu]
      exact bodySpec_restorePath env _ _ (by simp [List.mem_append, h])
  · rw [upgradeFlow_skip d env f0 tr cur (le_of_not_lt hv)]
    exact ⟨h, by simp, by simp⟩

/-- The connection and version-read stages satisfy the body invariant
whenever the incoming trace does. -/
theorem bodySpec_stageConnect (d : Database) (env : OpenEnv) (f0 : Files)
    (tr : List Ev) (h : Ev.closeCall ∉ tr) :
    BodySpec env (openStageConnect d env f0 tr) := by
  unfold openStageConnect openStageVersion
  cases hoc : env.openOrCreate with
  | error e =>
    exact ⟨by simp [List.mem_append, h], by intro m _; rfl, by simp⟩
  | ok u =>
    cases hgv : env.getVersion with
    | error e =>
      exact ⟨by simp [List.mem_append, h], by intro m _; rfl, by simp⟩
    | ok v =>
      exact bodySpec_upgradeFlow d env f0 _ v (by simp [List.mem_append, h])

/-- The optional encryption stage satisfies the body invariant whenever
the incoming trace does. -/
theorem bodySpec_stageEncrypt (d : Database) (env : OpenEnv) (f0 : Files)
    (tr : List Ev) (h : Ev.closeCall ∉ tr) :
    BodySpec env (openStageEncrypt d env f0 tr) := by
  unfold openStageEncrypt
  by_cases hm2 : d.mode = "encryption"
  · rw [if_pos hm2]
    cases henc2 : env.encryptDatabase with
    | error e =>
      exact ⟨by simp [List.mem_append, h], by intro m _; rfl, by simp⟩
    | ok u =>
      exact bodySpec_stageConnect d env f0 _ (by simp [List.mem_append, h])
  · rw [if_neg hm2]
    exact bodySpec_stageConnect d env f0 tr h

/-- The whole body of `open` satisfies the invariant. -/
theorem openBody_spec (d : Database) (env : OpenEnv) (f0 : Files) :
    BodySpec env (openBody d env f0) := by
  unfold openBody
  by_cases hm1 : d.mode = "newsecret"
  · rw [if_pos hm1]
    cases hcp : env.changePassword with
    | error e => exact ⟨by simp, by intro m _; rfl, by simp⟩
    | ok u => exact bodySpec_stageEncrypt d env f0 _ (by simp)
  · rw [if_neg hm1]
    exact bodySpec_stageEncrypt d env f0 [] (by simp)

/-- C5 counterexample: when the upgrade fails and the restore also fails
— precisely the unrecovered rejection the claim is about — `open()`
rejects with the wrapped error, but the open flag is left `true`
(`isDBOpen()` returns `true`, since line 110 returns without ever
resetting `_isDBOpen`) and `close()` is never invoked. -/
theorem open_unrecovered_failure_leaves_flag_set :
    (dbEx2.openDB envC5 filesEx).result =
      Except.error ("Open: copyfile EACCES") ∧
    (dbEx2.openDB envC5 filesEx).isOpen = true ∧
    Ev.closeCall ∉ (dbEx2.openDB envC5 filesEx).trace := by
  refine ⟨rfl, rfl, ?_⟩
  decide

/-- C5 amended: whenever `open()` rejects, the rejection carries an
`Open:`-wrapped error and the cleanup `close()` is never invoked (the
close() call of the outer catch is unreachable because the flag is still
false on every path into it); the flag is left `false` on every rejection
except the restore-failure rejection, where — contrary to the claim — the
flag remains `true`, the restore is in the trace and the message wraps
the restore error. -/
theorem open_failure_flag (d : Database) (env : OpenEnv) (f0 : Files)
    (m : String)
    (h : (d.openDB env f0).result = Except.error m) :
    (∃ m2, m = "Open: " ++ m2) ∧
    Ev.closeCall ∉ (d.openDB env f0).trace ∧
    ((d.openDB env f0).isOpen = true →
      Ev.restoreBackup ∈ (d.openDB env f0).trace ∧
      ∃ e2, env.restoreBackup = Except.error e2 ∧ m = "Open: " ++ e2) := by
  have hs := openBody_spec d env f0
  rcases hb : openBody d env f0 with ⟨o, f, tr, ex⟩
  rw [hb] at hs
  obtain ⟨hcl, hth, hrj⟩ := hs
  rw [Database.openDB, hb] at h ⊢
  cases ex with
  | resolved => exact absurd h (by simp)
  | rejected m0 =>
    obtain ⟨ho, hmem, e2, hre, hm0⟩ := hrj m0 rfl
    have hm : m0 = m := by simpa using h
    subst hm
    exact ⟨⟨e2, hm0⟩, hcl, fun _ => ⟨hmem, e2, hre, hm0⟩⟩
  | thrown m0 =>
    have ho : o = false := hth m0 rfl
    subst ho
    have hm : "Open: " ++ m0 = m := by simpa using h
    refine ⟨⟨m0, hm.symm⟩, by simpa using hcl, ?_⟩
    intro hopen
    exact absurd hopen (by simp)

/-- Witness for the amended statement of C5 at a concrete input: a failure to
acquire the connection rejects with the wrapped error and no `close()`
cleanup is recorded. -/
theorem open_failure_flag_witness :
    (∃ m2, "Open: cannot open file" = "Open: " ++ m2) ∧
    Ev.closeCall ∉ (dbEx2.openDB envConnFail filesEx).trace := by
  have h := open_failure_flag dbEx2 envConnFail filesEx
    ("Open: cannot open file") rfl
  exact ⟨h.1, h.2.1⟩
